import Mathlib

/-!
Shallow embedding of the Shaw 402 vault program
(src/programs/vault/src/lib.rs) and verification of its specification.

Modelling conventions:
- `u64`/`u32`/`u16` values are `Nat`s; Rust checked arithmetic becomes
  `Option Nat` with an explicit bound (`checked_add`, `checked_mul`,
  `checked_div`), `u128` intermediate arithmetic uses the `U128` bound.
- `i64` timestamps and day counts are `Int`; Rust `i64` division truncates
  toward zero, which is `Int.tdiv`; Rust `as u64` / `as u128` casts are
  two's-complement wraparound, i.e. `x % 2^w` (Euclidean mod, nonnegative).
- Solana `Pubkey`s are `Nat`s.
- Each instruction is embedded as a function from its account state and
  inputs to `Except VaultError <new state>`.  The Solana runtime applies an
  instruction's writes all-or-nothing: an instruction that returns an error
  leaves every account untouched, so returning `Except.error e` models
  "fails with `e` and no state is mutated", even when the Rust function
  body wrote to an account struct before bailing out.
- Fund movement (system-program / SPL-token transfers) is external to the
  program's state and is modelled by the amount handed to the transfer,
  not by balance bookkeeping; for `withdraw`'s SPL branch the presence of
  the optional token accounts is the `token_accounts_present` flag.
-/

namespace ShawVault

/-- Exclusive upper bound of `u64` values. -/
def U64 : Nat := 2 ^ 64

/-- Exclusive upper bound of `u32` values. -/
def U32 : Nat := 2 ^ 32

/-- Exclusive upper bound of `u128` values. -/
def U128 : Nat := 2 ^ 128

/-- Rust `checked_add` on an unsigned type with exclusive bound `lim`. -/
def checked_add (lim a b : Nat) : Option Nat :=
  if a + b < lim then some (a + b) else none

/-- Rust `checked_mul` on an unsigned type with exclusive bound `lim`. -/
def checked_mul (lim a b : Nat) : Option Nat :=
  if a * b < lim then some (a * b) else none

/-- Rust `checked_div` on an unsigned type: `none` exactly on divisor 0. -/
def checked_div (a b : Nat) : Option Nat :=
  if b = 0 then none else some (a / b)

/-- Rust `as u64` cast of an `i64` value (two's-complement wraparound). -/
def i64_as_u64 (x : Int) : Nat := (x % (2 ^ 64 : Int)).toNat

/-- Rust `as u128` cast of an `i64` value (two's-complement wraparound). -/
def i64_as_u128 (x : Int) : Nat := (x % (2 ^ 128 : Int)).toNat

/-- Rust `u16::saturating_add` (both operands already `< 2^16`). -/
def saturating_add_u16 (a b : Nat) : Nat := min (a + b) 65535

/-- `DepositType` from lib.rs: the asset class of a merchant deposit. -/
inductive DepositType where
  | Sol
  | SplToken
deriving DecidableEq

/-- `VaultError` from lib.rs. -/
inductive VaultError where
  | InsufficientDeposit
  | DepositNotActive
  | Unauthorized
  | MathOverflow
  | InvalidRate
  | OrderTooSmall
  | MissingTokenAccount
deriving DecidableEq

/-- The global `Vault` account (registry) from lib.rs. -/
structure Vault where
  authority : Nat
  bump : Nat
  total_deposits : Nat
  total_merchants : Nat
  min_deposit_sol : Nat
  min_deposit_token : Nat
  reward_share_rate : Nat
  staking_enabled : Bool
deriving DecidableEq

/-- The per-merchant `MerchantDeposit` account from lib.rs. -/
structure MerchantDeposit where
  merchant : Nat
  vault : Nat
  deposit_token : DepositType
  total_deposited : Nat
  accrued_rewards : Nat
  is_active : Bool
  deposited_at : Int
  bump : Nat
  total_orders_processed : Nat
  total_volume_usd : Nat
  current_month_volume : Nat
  last_volume_reset : Int
  monthly_unique_customers : Nat
  current_yield_bps : Nat
deriving DecidableEq

/-- `initialize` from lib.rs: create the vault registry with defaults. -/
def init_vault (authority : Nat) (bump : Nat) : Vault :=
  { authority := authority
    bump := bump
    total_deposits := 0
    total_merchants := 0
    min_deposit_sol := 1000000000
    min_deposit_token := 100000000
    reward_share_rate := 8000
    staking_enabled := true }

/-- The `volume_bonus_bps` binding inside `calculate_dynamic_yield` in
lib.rs: 0–600 bps, linear ramp to the cap at $1M/month in micro-units,
computed in u128 with failed steps defaulting to 0, cast back to u16. -/
def volume_bonus_bps (monthly_volume_usd : Nat) : Nat :=
  if monthly_volume_usd ≥ 1000000000000 then
    600
  else
    (min ((checked_div ((checked_mul U128 monthly_volume_usd 600).getD 0)
      1000000000000).getD 0) 600) % 65536

/-- The `loyalty_bonus_bps` binding inside `calculate_dynamic_yield` in
lib.rs: 0–300 bps, linear ramp to the cap at 365 days, computed in u128
with failed steps defaulting to 0, cast back to u16. -/
def loyalty_bonus_bps (days_deposited : Int) : Nat :=
  if days_deposited ≥ 365 then
    300
  else
    (min ((checked_div ((checked_mul U128 (i64_as_u128 days_deposited) 300).getD 0)
      365).getD 0) 300) % 65536

/-- `calculate_dynamic_yield` from lib.rs: yield in basis points from
monthly volume (u64 micro-USD) and days deposited (i64). -/
def calculate_dynamic_yield (monthly_volume_usd : Nat) (days_deposited : Int) : Nat :=
  min (saturating_add_u16 (saturating_add_u16 300 (volume_bonus_bps monthly_volume_usd))
        (loyalty_bonus_bps days_deposited)) 1200

/-- `calculate_merchant_tier` from lib.rs: 0=Bronze, 1=Silver, 2=Gold,
3=Platinum, requiring both the volume and the tenure threshold. -/
def calculate_merchant_tier (monthly_volume_usd : Nat) (deposited_at : Int)
    (current_time : Int) : Nat :=
  let days_deposited := (current_time - deposited_at).tdiv 86400
  if monthly_volume_usd ≥ 200000000000 ∧ days_deposited ≥ 365 then 3
  else if monthly_volume_usd ≥ 50000000000 ∧ days_deposited ≥ 180 then 2
  else if monthly_volume_usd ≥ 10000000000 ∧ days_deposited ≥ 90 then 1
  else 0

/-- `deposit_sol` from lib.rs.  `vault_key` is the vault account's address
and `bump` the PDA bump, both supplied by the runtime context; the SOL
transfer itself is external.  Returns the new merchant-deposit state. -/
def deposit_sol (vault : Vault) (md : MerchantDeposit) (merchant : Nat)
    (vault_key : Nat) (bump : Nat) (now : Int) (amount : Nat) :
    Except VaultError MerchantDeposit :=
  if amount ≥ vault.min_deposit_sol then
    if md.is_active then
      match checked_add U64 md.total_deposited amount with
      | none => .error .MathOverflow
      | some td => .ok { md with total_deposited := td }
    else
      .ok { merchant := merchant
            vault := vault_key
            deposit_token := .Sol
            total_deposited := amount
            accrued_rewards := 0
            is_active := true
            deposited_at := now
            bump := bump
            total_orders_processed := 0
            total_volume_usd := 0
            current_month_volume := 0
            last_volume_reset := now
            monthly_unique_customers := 0
            current_yield_bps := 300 }
  else
    .error .InsufficientDeposit

/-- `deposit_token` from lib.rs.  Same shape as `deposit_sol` but checks
the token minimum and records the `SplToken` asset class on first deposit;
the SPL transfer itself is external. -/
def deposit_token (vault : Vault) (md : MerchantDeposit) (merchant : Nat)
    (vault_key : Nat) (bump : Nat) (now : Int) (amount : Nat) :
    Except VaultError MerchantDeposit :=
  if amount ≥ vault.min_deposit_token then
    if md.is_active then
      match checked_add U64 md.total_deposited amount with
      | none => .error .MathOverflow
      | some td => .ok { md with total_deposited := td }
    else
      .ok { merchant := merchant
            vault := vault_key
            deposit_token := .SplToken
            total_deposited := amount
            accrued_rewards := 0
            is_active := true
            deposited_at := now
            bump := bump
            total_orders_processed := 0
            total_volume_usd := 0
            current_month_volume := 0
            last_volume_reset := now
            monthly_unique_customers := 0
            current_yield_bps := 300 }
  else
    .error .InsufficientDeposit

/-- `withdraw` from lib.rs.  `caller` is the signing merchant,
`token_accounts_present` whether the optional SPL accounts were passed.
Returns the payout amount handed to the transfer and the new state. -/
def withdraw (vault : Vault) (md : MerchantDeposit) (caller : Nat)
    (token_accounts_present : Bool) (now : Int) :
    Except VaultError (Nat × MerchantDeposit) :=
  if md.is_active then
    if md.merchant = caller then
      let time_elapsed := now - md.deposited_at
      let days_elapsed := time_elapsed.tdiv 86400
      let yield_bps := md.current_yield_bps
      match checked_mul U64 md.total_deposited yield_bps with
      | none => .error .MathOverflow
      | some m1 =>
        match checked_div m1 10000 with
        | none => .error .MathOverflow
        | some annual_reward =>
          match checked_div annual_reward 365 with
          | none => .error .MathOverflow
          | some daily_reward =>
            match checked_mul U64 daily_reward (i64_as_u64 days_elapsed) with
            | none => .error .MathOverflow
            | some total_rewards =>
              match checked_mul U64 total_rewards vault.reward_share_rate with
              | none => .error .MathOverflow
              | some m2 =>
                match checked_div m2 10000 with
                | none => .error .MathOverflow
                | some merchant_rewards =>
                  match checked_add U64 md.total_deposited merchant_rewards with
                  | none => .error .MathOverflow
                  | some total_withdrawal =>
                    match md.deposit_token with
                    | .Sol =>
                      .ok (total_withdrawal,
                        { md with is_active := false,
                                  accrued_rewards := merchant_rewards })
                    | .SplToken =>
                      if token_accounts_present then
                        .ok (total_withdrawal,
                          { md with is_active := false,
                                    accrued_rewards := merchant_rewards })
                      else
                        .error .MissingTokenAccount
    else
      .error .Unauthorized
  else
    .error .DepositNotActive

/-- `update_vault_config` from lib.rs: optional fields overwrite, the
authority is checked first, a new reward share rate must be ≤ 10000. -/
def update_vault_config (vault : Vault) (caller : Nat)
    (min_sol : Option Nat) (min_token : Option Nat)
    (share_rate : Option Nat) (enabled : Option Bool) :
    Except VaultError Vault :=
  if caller = vault.authority then
    let v1 := match min_sol with
      | some m => { vault with min_deposit_sol := m }
      | none => vault
    let v2 := match min_token with
      | some m => { v1 with min_deposit_token := m }
      | none => v1
    match share_rate with
    | some r =>
      if r ≤ 10000 then
        let v3 := { v2 with reward_share_rate := r }
        let v4 := match enabled with
          | some e => { v3 with staking_enabled := e }
          | none => v3
        .ok v4
      else
        .error .InvalidRate
    | none =>
      let v4 := match enabled with
        | some e => { v2 with staking_enabled := e }
        | none => v2
      .ok v4
  else
    .error .Unauthorized

/-- `calculate_rewards` from lib.rs: read-only reward preview.  Note that
it recomputes the yield with `calculate_dynamic_yield` at query time and
returns the gross reward (no reward-share step). -/
def calculate_rewards (md : MerchantDeposit) (now : Int) :
    Except VaultError Nat :=
  if md.is_active then
    let time_elapsed := now - md.deposited_at
    let days_elapsed := time_elapsed.tdiv 86400
    let yield_bps := calculate_dynamic_yield md.current_month_volume days_elapsed
    match checked_mul U64 md.total_deposited yield_bps with
    | none => .error .MathOverflow
    | some m1 =>
      match checked_div m1 10000 with
      | none => .error .MathOverflow
      | some annual_reward =>
        match checked_div annual_reward 365 with
        | none => .error .MathOverflow
        | some daily_reward =>
          match checked_mul U64 daily_reward (i64_as_u64 days_elapsed) with
          | none => .error .MathOverflow
          | some total_rewards => .ok total_rewards
  else
    .error .DepositNotActive

/-- The monthly rolling-window reset at the top of `record_order` in
lib.rs: if at least one 30-day period (2592000 s) elapsed since
`last_volume_reset`, zero the window counters and re-anchor the window. -/
def reset_monthly (md : MerchantDeposit) (now : Int) : MerchantDeposit :=
  if (now - md.last_volume_reset).tdiv 2592000 ≥ 1 then
    { md with current_month_volume := 0
              monthly_unique_customers := 0
              last_volume_reset := now }
  else
    md

/-- `record_order` from lib.rs: rolling-window reset, anti-gaming floor,
counter updates, then yield recomputation.  The `_buyer_wallet` argument
of the Rust function is unused there and omitted here. -/
def record_order (md : MerchantDeposit) (order_amount_usd : Nat) (now : Int) :
    Except VaultError MerchantDeposit :=
  let md1 := reset_monthly md now
  if order_amount_usd ≥ 10000000 then
    match checked_add U64 md1.total_orders_processed 1 with
    | none => .error .MathOverflow
    | some top =>
      match checked_add U64 md1.total_volume_usd order_amount_usd with
      | none => .error .MathOverflow
      | some tvu =>
        match checked_add U64 md1.current_month_volume order_amount_usd with
        | none => .error .MathOverflow
        | some cmv =>
          match checked_add U32 md1.monthly_unique_customers 1 with
          | none => .error .MathOverflow
          | some muc =>
            let days_since_deposit := (now - md1.deposited_at).tdiv 86400
            .ok { md1 with
                  total_orders_processed := top
                  total_volume_usd := tvu
                  current_month_volume := cmv
                  monthly_unique_customers := muc
                  current_yield_bps := calculate_dynamic_yield cmv days_since_deposit }
  else
    .error .OrderTooSmall

/-- The withdrawal merchant-reward formula exactly as the spec states it
(§4.6 steps 1–5 / §8):
`floor(floor(floor(td*yield_bps/10000)/365)*days_elapsed*share_bps/10000)`.
Stated spec-side, to be compared with the reward `withdraw` computes. -/
def spec_merchant_reward (total_deposited yield_bps days_elapsed share_bps : Nat) : Nat :=
  total_deposited * yield_bps / 10000 / 365 * days_elapsed * share_bps / 10000

/-- Registry states reachable by the program: created by `initialize`
and then mutated only by successful `update_vault_config` calls (no other
instruction writes the `Vault` account). -/
inductive VaultReachable : Vault → Prop where
  | init (authority bump : Nat) : VaultReachable (init_vault authority bump)
  | update (v : Vault) (caller : Nat) (ms mt sr : Option Nat) (en : Option Bool)
      (v2 : Vault) (hv : VaultReachable v)
      (hok : update_vault_config v caller ms mt sr en = .ok v2) : VaultReachable v2

/-- A concrete active merchant-deposit account used as the base state of
the concrete checks: 2×10⁹ native units deposited at time 0 by merchant 1,
no orders recorded yet. -/
def md_base : MerchantDeposit :=
  { merchant := 1
    vault := 9
    deposit_token := .Sol
    total_deposited := 2000000000
    accrued_rewards := 0
    is_active := true
    deposited_at := 0
    bump := 0
    total_orders_processed := 0
    total_volume_usd := 0
    current_month_volume := 0
    last_volume_reset := 0
    monthly_unique_customers := 0
    current_yield_bps := 300 }

/-! ## Characterization of the yield engine -/

set_option maxRecDepth 10000

/-- The volume bonus equals the clamped linear ramp `min 600 (v*600/1e12)`
for every volume: the u128 intermediates never overflow below the cap. -/
theorem volume_bonus_bps_eq (v : Nat) :
    volume_bonus_bps v = min 600 (v * 600 / 1000000000000) := by
  unfold volume_bonus_bps
  by_cases h : v ≥ 1000000000000
  · rw [if_pos h]
    omega
  · rw [if_neg h]
    push_neg at h
    have hmul : checked_mul U128 v 600 = some (v * 600) := by
      unfold checked_mul
      rw [if_pos]
      unfold U128
      omega
    rw [hmul]
    unfold checked_div
    rw [if_neg (by norm_num)]
    simp only [Option.getD_some]
    omega

/-- The loyalty bonus equals the clamped linear ramp `min 300 (d*300/365)`
for every nonnegative day count. -/
theorem loyalty_bonus_bps_eq (d : Int) (hd : 0 ≤ d) :
    loyalty_bonus_bps d = min 300 (d.toNat * 300 / 365) := by
  unfold loyalty_bonus_bps
  by_cases h : d ≥ 365
  · rw [if_pos h]
    omega
  · rw [if_neg h]
    push_neg at h
    have hcast : i64_as_u128 d = d.toNat := by
      unfold i64_as_u128
      rw [Int.emod_eq_of_lt hd (by omega)]
    have hmul : checked_mul U128 (i64_as_u128 d) 300 = some (d.toNat * 300) := by
      rw [hcast]
      unfold checked_mul
      rw [if_pos]
      unfold U128
      omega
    rw [hmul]
    unfold checked_div
    rw [if_neg (by norm_num)]
    simp only [Option.getD_some]
    omega

/-- The volume bonus never exceeds 600 bps. -/
theorem volume_bonus_bps_le (v : Nat) : volume_bonus_bps v ≤ 600 := by
  rw [volume_bonus_bps_eq]; omega

/-- The loyalty bonus never exceeds 300 bps, for any day count. -/
theorem loyalty_bonus_bps_le (d : Int) : loyalty_bonus_bps d ≤ 300 := by
  unfold loyalty_bonus_bps
  by_cases h : d ≥ 365
  · rw [if_pos h]
  · rw [if_neg h]; omega

/-- The saturations and the final cap in `calculate_dynamic_yield` are
inert: the yield is exactly base + volume bonus + loyalty bonus. -/
theorem calculate_dynamic_yield_eq (v : Nat) (d : Int) :
    calculate_dynamic_yield v d = 300 + volume_bonus_bps v + loyalty_bonus_bps d := by
  have hv := volume_bonus_bps_le v
  have hl := loyalty_bonus_bps_le d
  unfold calculate_dynamic_yield saturating_add_u16
  omega

/-! ## Helper lemmas about the arithmetic embedding -/

/-- A checked multiplication below the bound succeeds with the product. -/
theorem checked_mul_eq_some (lim a b : Nat) (h : a * b < lim) :
    checked_mul lim a b = some (a * b) := by
  unfold checked_mul; rw [if_pos h]

/-- A checked addition below the bound succeeds with the sum. -/
theorem checked_add_eq_some (lim a b : Nat) (h : a + b < lim) :
    checked_add lim a b = some (a + b) := by
  unfold checked_add; rw [if_pos h]

/-- A checked division by a nonzero divisor succeeds with the quotient. -/
theorem checked_div_eq_some (a b : Nat) (h : b ≠ 0) :
    checked_div a b = some (a / b) := by
  unfold checked_div; rw [if_neg h]

/-- For a nonnegative `i64` in range, truncating division by 86400 followed
by the `as u64` cast is plain natural-number division. -/
theorem i64_as_u64_tdiv (x : Int) (h0 : 0 ≤ x) (hlt : x < 2 ^ 63) :
    i64_as_u64 (x.tdiv 86400) = x.toNat / 86400 := by
  rw [Int.tdiv_eq_ediv h0 (by norm_num)]
  unfold i64_as_u64
  omega

/-- The rolling-window reset never touches `deposited_at`. -/
theorem reset_monthly_deposited_at (md : MerchantDeposit) (now : Int) :
    (reset_monthly md now).deposited_at = md.deposited_at := by
  unfold reset_monthly; split <;> rfl

/-- When fewer than 30 days passed since the last reset, the rolling-window
reset is the identity. -/
theorem reset_monthly_id (md : MerchantDeposit) (now : Int)
    (h : (now - md.last_volume_reset).tdiv 2592000 < 1) :
    reset_monthly md now = md := by
  unfold reset_monthly; rw [if_neg (by omega)]

/-- Successful-path characterization of `withdraw`: on an active account,
called by its merchant, with every checked step in bounds, the payout is
principal plus the spec's merchant-reward formula evaluated at the stored
yield, and the new state only flips `is_active` and records the reward. -/
theorem withdraw_ok_spec (vault : Vault) (md : MerchantDeposit) (tap : Bool)
    (now : Int)
    (hactive : md.is_active = true)
    (htap : md.deposit_token = DepositType.SplToken → tap = true)
    (h1 : md.total_deposited * md.current_yield_bps < U64)
    (h2 : md.total_deposited * md.current_yield_bps / 10000 / 365 *
          i64_as_u64 ((now - md.deposited_at).tdiv 86400) < U64)
    (h3 : md.total_deposited * md.current_yield_bps / 10000 / 365 *
          i64_as_u64 ((now - md.deposited_at).tdiv 86400) *
          vault.reward_share_rate < U64)
    (h4 : md.total_deposited +
          spec_merchant_reward md.total_deposited md.current_yield_bps
            (i64_as_u64 ((now - md.deposited_at).tdiv 86400))
            vault.reward_share_rate < U64) :
    withdraw vault md md.merchant tap now =
      .ok (md.total_deposited +
             spec_merchant_reward md.total_deposited md.current_yield_bps
               (i64_as_u64 ((now - md.deposited_at).tdiv 86400))
               vault.reward_share_rate,
           { md with
             is_active := false
             accrued_rewards :=
               spec_merchant_reward md.total_deposited md.current_yield_bps
                 (i64_as_u64 ((now - md.deposited_at).tdiv 86400))
                 vault.reward_share_rate }) := by
  unfold spec_merchant_reward at h4 ⊢
  unfold withdraw
  rw [hactive]
  simp only [if_true]
  rw [checked_mul_eq_some _ _ _ h1]
  simp only []
  rw [checked_div_eq_some _ 10000 (by norm_num)]
  simp only []
  rw [checked_div_eq_some _ 365 (by norm_num)]
  simp only []
  rw [checked_mul_eq_some _ _ _ h2]
  simp only []
  rw [checked_mul_eq_some _ _ _ h3]
  simp only []
  rw [checked_div_eq_some _ 10000 (by norm_num)]
  simp only []
  rw [checked_add_eq_some _ _ _ h4]
  simp only []
  cases hdt : md.deposit_token with
  | Sol => rfl
  | SplToken => rw [htap hdt]; simp only [if_true]

/-- A withdrawal from an inactive account always fails `DepositNotActive`. -/
theorem withdraw_inactive (vault : Vault) (md : MerchantDeposit) (caller : Nat)
    (tap : Bool) (now : Int) (h : md.is_active = false) :
    withdraw vault md caller tap now = .error .DepositNotActive := by
  unfold withdraw
  rw [h]
  simp only [Bool.false_eq_true, if_false]

/-- Successful-path characterization of `calculate_rewards`: it returns
the gross reward (no reward-share step), computed with the dynamic yield
recomputed at query time. -/
theorem calculate_rewards_ok_spec (md : MerchantDeposit) (now : Int)
    (hactive : md.is_active = true)
    (h1 : md.total_deposited *
          calculate_dynamic_yield md.current_month_volume
            ((now - md.deposited_at).tdiv 86400) < U64)
    (h2 : md.total_deposited *
          calculate_dynamic_yield md.current_month_volume
            ((now - md.deposited_at).tdiv 86400) / 10000 / 365 *
          i64_as_u64 ((now - md.deposited_at).tdiv 86400) < U64) :
    calculate_rewards md now =
      .ok (md.total_deposited *
             calculate_dynamic_yield md.current_month_volume
               ((now - md.deposited_at).tdiv 86400) / 10000 / 365 *
             i64_as_u64 ((now - md.deposited_at).tdiv 86400)) := by
  unfold calculate_rewards
  rw [hactive]
  simp only [if_true]
  rw [checked_mul_eq_some _ _ _ h1]
  simp only []
  rw [checked_div_eq_some _ 10000 (by norm_num)]
  simp only []
  rw [checked_div_eq_some _ 365 (by norm_num)]
  simp only []
  rw [checked_mul_eq_some _ _ _ h2]

/-- Successful-path characterization of `record_order`: with the order at
or above the floor and no counter overflowing, the post-reset state gets
its counters bumped and its yield recomputed from the new monthly volume
and the days since deposit. -/
theorem record_order_ok_spec (md : MerchantDeposit) (amt : Nat) (now : Int)
    (hamt : 10000000 ≤ amt)
    (h1 : (reset_monthly md now).total_orders_processed + 1 < U64)
    (h2 : (reset_monthly md now).total_volume_usd + amt < U64)
    (h3 : (reset_monthly md now).current_month_volume + amt < U64)
    (h4 : (reset_monthly md now).monthly_unique_customers + 1 < U32) :
    record_order md amt now =
      .ok { reset_monthly md now with
            total_orders_processed := (reset_monthly md now).total_orders_processed + 1
            total_volume_usd := (reset_monthly md now).total_volume_usd + amt
            current_month_volume := (reset_monthly md now).current_month_volume + amt
            monthly_unique_customers := (reset_monthly md now).monthly_unique_customers + 1
            current_yield_bps :=
              calculate_dynamic_yield ((reset_monthly md now).current_month_volume + amt)
                ((now - md.deposited_at).tdiv 86400) } := by
  unfold record_order
  simp only []
  rw [if_pos hamt]
  rw [checked_add_eq_some _ _ _ h1]
  simp only []
  rw [checked_add_eq_some _ _ _ h2]
  simp only []
  rw [checked_add_eq_some _ _ _ h3]
  simp only []
  rw [checked_add_eq_some _ _ _ h4]
  simp only []
  rw [reset_monthly_deposited_at]

/-! ## Claim theorems -/

/-- C4: `calculate_dynamic_yield` is a total function (it is defined for
every input; failed intermediate computations default the bonus term to 0),
its result always lies in [300, 1200] basis points, it is non-decreasing
in the monthly volume for fixed days and non-decreasing in days (over
nonnegative days) for fixed volume, and it equals exactly 1200 whenever
monthly volume ≥ 10¹² micro-units ($1M) and days ≥ 365. -/
theorem C4_dynamic_yield_props :
    (∀ (v : Nat) (d : Int),
        300 ≤ calculate_dynamic_yield v d ∧ calculate_dynamic_yield v d ≤ 1200) ∧
    (∀ (v1 v2 : Nat) (d : Int), v1 ≤ v2 →
        calculate_dynamic_yield v1 d ≤ calculate_dynamic_yield v2 d) ∧
    (∀ (v : Nat) (d1 d2 : Int), 0 ≤ d1 → d1 ≤ d2 →
        calculate_dynamic_yield v d1 ≤ calculate_dynamic_yield v d2) ∧
    (∀ (v : Nat) (d : Int), 1000000000000 ≤ v → 365 ≤ d →
        calculate_dynamic_yield v d = 1200) := by
  refine ⟨?_, ?_, ?_, ?_⟩
  · intro v d
    rw [calculate_dynamic_yield_eq]
    have hv := volume_bonus_bps_le v
    have hl := loyalty_bonus_bps_le d
    omega
  · intro v1 v2 d h
    rw [calculate_dynamic_yield_eq, calculate_dynamic_yield_eq,
      volume_bonus_bps_eq, volume_bonus_bps_eq]
    omega
  · intro v d1 d2 h1 h2
    rw [calculate_dynamic_yield_eq, calculate_dynamic_yield_eq,
      loyalty_bonus_bps_eq _ h1, loyalty_bonus_bps_eq _ (le_trans h1 h2)]
    omega
  · intro v d hv hd
    have hb : volume_bonus_bps v = 600 := by
      unfold volume_bonus_bps; rw [if_pos hv]
    have hl : loyalty_bonus_bps d = 300 := by
      unfold loyalty_bonus_bps; rw [if_pos hd]
    rw [calculate_dynamic_yield_eq, hb, hl]

/-- Witness for C4 at concrete inputs: Scenario B's point lies in bounds,
monotonicity holds at a sample pair in each argument, and the cap value
1200 is reached at ($1M, 365 d). -/
theorem C4_dynamic_yield_props_witness :
    (300 ≤ calculate_dynamic_yield 50000000 10 ∧
      calculate_dynamic_yield 50000000 10 ≤ 1200) ∧
    calculate_dynamic_yield 50000000 10 ≤ calculate_dynamic_yield 980000000000 10 ∧
    calculate_dynamic_yield 50000000 10 ≤ calculate_dynamic_yield 50000000 400 ∧
    calculate_dynamic_yield 1000000000000 365 = 1200 :=
  ⟨C4_dynamic_yield_props.1 50000000 10,
   C4_dynamic_yield_props.2.1 50000000 980000000000 10 (by norm_num),
   C4_dynamic_yield_props.2.2.1 50000000 10 400 (by norm_num) (by norm_num),
   C4_dynamic_yield_props.2.2.2 1000000000000 365 (by norm_num) (by norm_num)⟩

/-- C9: each tier is awarded exactly when both its volume and its tenure
threshold hold and no higher tier's pair holds (highest tier first);
in particular any volume with tenure below 90 days yields Bronze (0). -/
theorem C9_tier_requires_both_thresholds :
    ∀ (v : Nat) (dep now : Int),
      (calculate_merchant_tier v dep now = 3 ↔
        200000000000 ≤ v ∧ 365 ≤ (now - dep).tdiv 86400) ∧
      (calculate_merchant_tier v dep now = 2 ↔
        (50000000000 ≤ v ∧ 180 ≤ (now - dep).tdiv 86400) ∧
          (v < 200000000000 ∨ (now - dep).tdiv 86400 < 365)) ∧
      (calculate_merchant_tier v dep now = 1 ↔
        (10000000000 ≤ v ∧ 90 ≤ (now - dep).tdiv 86400) ∧
          (v < 200000000000 ∨ (now - dep).tdiv 86400 < 365) ∧
          (v < 50000000000 ∨ (now - dep).tdiv 86400 < 180)) ∧
      (200000000000 ≤ v → (now - dep).tdiv 86400 < 90 →
        calculate_merchant_tier v dep now = 0) := by
  intro v dep now
  unfold calculate_merchant_tier
  simp only []
  generalize (now - dep).tdiv 86400 = D
  split_ifs with h1 h2 h3 <;>
    (try simp only [false_iff, true_iff, implies_true, and_true, true_and]) <;>
    omega

/-- Witness for C9: a merchant with $200,000 monthly volume but only
10 days of tenure is classified Bronze. -/
theorem C9_tier_requires_both_thresholds_witness :
    (200000000000 : Nat) ≤ 200000000000 ∧
    ((864000 : Int) - 0).tdiv 86400 < 90 ∧
    calculate_merchant_tier 200000000000 0 864000 = 0 :=
  ⟨by norm_num, by decide,
   (C9_tier_requires_both_thresholds 200000000000 0 864000).2.2.2
     (by norm_num) (by decide)⟩

/-- C1 counterexample: on the active account `md_base` (volume 0, stored
yield 300) queried 30 days after deposit, `calculate_rewards` returns
5326020 — computed with a freshly recomputed yield of 324 bps and no
reward-share step — while `withdraw` at the very same timestamp computes
and stores a merchant reward of 3945192 (stored yield 300 bps, 80% share).
The two reward figures differ, refuting the claimed round-trip identity. -/
theorem C1_round_trip_counterexample :
    calculate_rewards md_base 2592000 = .ok 5326020 ∧
    withdraw (init_vault 7 0) md_base 1 false 2592000 =
      .ok (2003945192, { md_base with is_active := false,
                                      accrued_rewards := 3945192 }) ∧
    (5326020 : Nat) ≠ 3945192 :=
  ⟨rfl, rfl, by decide⟩

/-- C1 amended: on an active account, `calculate_rewards` returns the
gross reward of withdrawal steps 1–4, but computed with the dynamic yield
recomputed at query time instead of the stored `current_yield_bps`, and
without the step-5 reward-share multiplication.  When the recomputed
yield coincides with the stored yield, `calculate_rewards` and `withdraw`
at the same timestamp agree on the gross reward, and `withdraw` stores
`accrued_rewards = floor(gross * reward_share_rate / 10000)` and pays out
the principal plus that share. -/
theorem C1_round_trip_amended (vault : Vault) (md : MerchantDeposit)
    (tap : Bool) (now : Int)
    (hactive : md.is_active = true)
    (htap : md.deposit_token = DepositType.SplToken → tap = true)
    (hyield : calculate_dynamic_yield md.current_month_volume
      ((now - md.deposited_at).tdiv 86400) = md.current_yield_bps)
    (h1 : md.total_deposited * md.current_yield_bps < U64)
    (h2 : md.total_deposited * md.current_yield_bps / 10000 / 365 *
          i64_as_u64 ((now - md.deposited_at).tdiv 86400) < U64)
    (h3 : md.total_deposited * md.current_yield_bps / 10000 / 365 *
          i64_as_u64 ((now - md.deposited_at).tdiv 86400) *
          vault.reward_share_rate < U64)
    (h4 : md.total_deposited +
          md.total_deposited * md.current_yield_bps / 10000 / 365 *
            i64_as_u64 ((now - md.deposited_at).tdiv 86400) *
            vault.reward_share_rate / 10000 < U64) :
    calculate_rewards md now =
      .ok (md.total_deposited * md.current_yield_bps / 10000 / 365 *
             i64_as_u64 ((now - md.deposited_at).tdiv 86400)) ∧
    withdraw vault md md.merchant tap now =
      .ok (md.total_deposited +
             md.total_deposited * md.current_yield_bps / 10000 / 365 *
               i64_as_u64 ((now - md.deposited_at).tdiv 86400) *
               vault.reward_share_rate / 10000,
           { md with
             is_active := false
             accrued_rewards :=
               md.total_deposited * md.current_yield_bps / 10000 / 365 *
                 i64_as_u64 ((now - md.deposited_at).tdiv 86400) *
                 vault.reward_share_rate / 10000 }) := by
  constructor
  · have hc := calculate_rewards_ok_spec md now hactive
      (by rw [hyield]; exact h1) (by rw [hyield]; exact h2)
    rw [hyield] at hc
    exact hc
  · have hw := withdraw_ok_spec vault md tap now hactive htap h1 h2 h3
      (by unfold spec_merchant_reward; exact h4)
    unfold spec_merchant_reward at hw
    exact hw

/-- Witness for the amended C1: merchant 1's account with stored yield
308 bps (matching the recomputed yield at 10 days, volume 0): both report
a gross reward of 1687670, and withdraw stores 80% of it, 1350136. -/
theorem C1_round_trip_amended_witness :
    calculate_rewards { md_base with current_yield_bps := 308 } 864000 =
      .ok 1687670 ∧
    withdraw (init_vault 7 0) { md_base with current_yield_bps := 308 }
      1 false 864000 =
      .ok (2001350136,
        { md_base with current_yield_bps := 308, is_active := false,
                       accrued_rewards := 1350136 }) := by
  have h := C1_round_trip_amended (init_vault 7 0)
    { md_base with current_yield_bps := 308 } false 864000 rfl
    (fun hh => absurd hh (by decide)) (by decide) (by decide) (by decide)
    (by decide) (by decide)
  exact ⟨h.1, h.2⟩

/-- C2: a withdraw by the account's merchant on an active account, with
every checked step in bounds, pays out
`total_deposited + floor(floor(floor(td*yield/10000)/365)*days*share/10000)`
with `days = floor((now - deposited_at)/86400)` and the stored yield;
afterwards `is_active` is false, `accrued_rewards` holds the merchant
reward, `total_deposited` is unchanged, and a second withdraw on the
resulting account fails with `DepositNotActive`. -/
theorem C2_withdraw_payout (vault : Vault) (md : MerchantDeposit)
    (tap : Bool) (now : Int)
    (hactive : md.is_active = true)
    (htap : md.deposit_token = DepositType.SplToken → tap = true)
    (hnow : md.deposited_at ≤ now)
    (hrange : now - md.deposited_at < 2 ^ 63)
    (h1 : md.total_deposited * md.current_yield_bps < U64)
    (h2 : md.total_deposited * md.current_yield_bps / 10000 / 365 *
          ((now - md.deposited_at).toNat / 86400) < U64)
    (h3 : md.total_deposited * md.current_yield_bps / 10000 / 365 *
          ((now - md.deposited_at).toNat / 86400) *
          vault.reward_share_rate < U64)
    (h4 : md.total_deposited +
          spec_merchant_reward md.total_deposited md.current_yield_bps
            ((now - md.deposited_at).toNat / 86400)
            vault.reward_share_rate < U64) :
    withdraw vault md md.merchant tap now =
      .ok (md.total_deposited +
             spec_merchant_reward md.total_deposited md.current_yield_bps
               ((now - md.deposited_at).toNat / 86400) vault.reward_share_rate,
           { md with
             is_active := false
             accrued_rewards :=
               spec_merchant_reward md.total_deposited md.current_yield_bps
                 ((now - md.deposited_at).toNat / 86400)
                 vault.reward_share_rate }) ∧
    (∀ (tap2 : Bool) (now2 : Int),
      withdraw vault
        { md with
          is_active := false
          accrued_rewards :=
            spec_merchant_reward md.total_deposited md.current_yield_bps
              ((now - md.deposited_at).toNat / 86400) vault.reward_share_rate }
        md.merchant tap2 now2 = .error .DepositNotActive) := by
  have hb : i64_as_u64 ((now - md.deposited_at).tdiv 86400) =
      (now - md.deposited_at).toNat / 86400 :=
    i64_as_u64_tdiv _ (by omega) hrange
  constructor
  · have h := withdraw_ok_spec vault md tap now hactive htap h1
      (by rw [hb]; exact h2) (by rw [hb]; exact h3) (by rw [hb]; exact h4)
    rw [h, hb]
  · intro tap2 now2
    exact withdraw_inactive _ _ _ _ _ rfl

/-- Witness for C2, the spec's Scenario C: 2×10⁹ deposited, stored yield
308 bps, 80% share, withdrawn 30 days after deposit pays 2,004,050,408 and
a second withdraw fails `DepositNotActive`. -/
theorem C2_withdraw_payout_witness :
    withdraw (init_vault 7 0) { md_base with current_yield_bps := 308 }
      1 false 2592000 =
      .ok (2004050408,
        { md_base with current_yield_bps := 308, is_active := false,
                       accrued_rewards := 4050408 }) ∧
    withdraw (init_vault 7 0)
      { md_base with current_yield_bps := 308, is_active := false,
                     accrued_rewards := 4050408 } 1 false 2678400 =
      .error .DepositNotActive := by
  have h := C2_withdraw_payout (init_vault 7 0)
    { md_base with current_yield_bps := 308 } false 2592000 rfl
    (fun hh => absurd hh (by decide)) (by decide) (by decide) (by decide)
    (by decide) (by decide) (by decide)
  exact ⟨h.1, h.2 false 2678400⟩

/-- C5: a `record_order` of at least $10 (10⁷ micro-units) that does not
overflow increments `total_orders_processed` and
`monthly_unique_customers` by exactly 1 and adds the amount to both
`total_volume_usd` and `current_month_volume`, all relative to the state
after the (possible) rolling-window reset, then recomputes
`current_yield_bps` from the new monthly volume and the days since
deposit. -/
theorem C5_record_order_updates (md : MerchantDeposit) (amt : Nat) (now : Int)
    (hamt : 10000000 ≤ amt)
    (h1 : (reset_monthly md now).total_orders_processed + 1 < U64)
    (h2 : (reset_monthly md now).total_volume_usd + amt < U64)
    (h3 : (reset_monthly md now).current_month_volume + amt < U64)
    (h4 : (reset_monthly md now).monthly_unique_customers + 1 < U32) :
    record_order md amt now =
      .ok { reset_monthly md now with
            total_orders_processed := (reset_monthly md now).total_orders_processed + 1
            total_volume_usd := (reset_monthly md now).total_volume_usd + amt
            current_month_volume := (reset_monthly md now).current_month_volume + amt
            monthly_unique_customers := (reset_monthly md now).monthly_unique_customers + 1
            current_yield_bps :=
              calculate_dynamic_yield ((reset_monthly md now).current_month_volume + amt)
                ((now - md.deposited_at).tdiv 86400) } :=
  record_order_ok_spec md amt now hamt h1 h2 h3 h4

/-- Witness for C5, the spec's Scenario B: a $50 order recorded 10 days
after deposit with no prior volume leaves `current_month_volume` = 50×10⁶
and `current_yield_bps` = 308 (volume bonus 0, loyalty bonus 8). -/
theorem C5_record_order_updates_witness :
    record_order md_base 50000000 864000 =
      .ok { md_base with
            total_orders_processed := 1
            total_volume_usd := 50000000
            current_month_volume := 50000000
            monthly_unique_customers := 1
            current_yield_bps := 308 } :=
  C5_record_order_updates md_base 50000000 864000 (by norm_num)
    (by decide) (by decide) (by decide) (by decide)

/-- C6: a `record_order` below $10 (10⁷ micro-units) fails with
`OrderTooSmall`; since the runtime applies an instruction's account
writes all-or-nothing, the error return means no field of the account —
in particular none of the rolling-window fields written by the reset that
the code performs before the amount check — is durably mutated. -/
theorem C6_order_too_small (md : MerchantDeposit) (amt : Nat) (now : Int)
    (h : amt < 10000000) :
    record_order md amt now = .error .OrderTooSmall := by
  unfold record_order
  simp only []
  rw [if_neg (by omega)]

/-- Witness for C6 at an input where the 30-day reset condition held at
entry (60 days since the last reset) and the order is one unit short. -/
theorem C6_order_too_small_witness :
    ((5184000 : Int) - md_base.last_volume_reset).tdiv 2592000 ≥ 1 ∧
    record_order md_base 9999999 5184000 = .error .OrderTooSmall :=
  ⟨by decide, C6_order_too_small md_base 9999999 5184000 (by norm_num)⟩

/-- C10: `record_order` never checks `is_active`: it can never fail with
`DepositNotActive`, and on an account with `is_active = false` (e.g. after
withdrawal) a sufficiently large order still succeeds and keeps updating
the counters and `current_yield_bps`. -/
theorem C10_record_order_ignores_inactive :
    (∀ (md : MerchantDeposit) (amt : Nat) (now : Int),
        record_order md amt now ≠ .error .DepositNotActive) ∧
    (∀ (md : MerchantDeposit) (amt : Nat) (now : Int),
        md.is_active = false → 10000000 ≤ amt →
        (reset_monthly md now).total_orders_processed + 1 < U64 →
        (reset_monthly md now).total_volume_usd + amt < U64 →
        (reset_monthly md now).current_month_volume + amt < U64 →
        (reset_monthly md now).monthly_unique_customers + 1 < U32 →
        record_order md amt now =
          .ok { reset_monthly md now with
                total_orders_processed :=
                  (reset_monthly md now).total_orders_processed + 1
                total_volume_usd := (reset_monthly md now).total_volume_usd + amt
                current_month_volume :=
                  (reset_monthly md now).current_month_volume + amt
                monthly_unique_customers :=
                  (reset_monthly md now).monthly_unique_customers + 1
                current_yield_bps :=
                  calculate_dynamic_yield
                    ((reset_monthly md now).current_month_volume + amt)
                    ((now - md.deposited_at).tdiv 86400) }) := by
  constructor
  · intro md amt now
    unfold record_order
    simp only []
    repeat' split
    all_goals intro hcon
    all_goals simp at hcon
  · intro md amt now _his hamt h1 h2 h3 h4
    exact record_order_ok_spec md amt now hamt h1 h2 h3 h4

/-- Witness for C10: on the withdrawn (inactive) variant of `md_base`, a
$50 order neither fails `DepositNotActive` (first conjunct at a too-small
order either) nor is rejected — it succeeds and bumps the counters. -/
theorem C10_record_order_ignores_inactive_witness :
    record_order { md_base with is_active := false } 5 864000 ≠
      .error .DepositNotActive ∧
    record_order { md_base with is_active := false } 50000000 864000 =
      .ok { md_base with
            is_active := false
            total_orders_processed := 1
            total_volume_usd := 50000000
            current_month_volume := 50000000
            monthly_unique_customers := 1
            current_yield_bps := 308 } :=
  ⟨C10_record_order_ignores_inactive.1 { md_base with is_active := false } 5 864000,
   C10_record_order_ignores_inactive.2 { md_base with is_active := false }
     50000000 864000 rfl (by norm_num) (by decide) (by decide) (by decide)
     (by decide)⟩

/-- C7: a deposit (of either asset class) below the registry's per-class
minimum fails `InsufficientDeposit` (and, the runtime being
all-or-nothing, changes nothing); at or above the minimum a top-up of an
active account adds exactly `amount` to `total_deposited`, and a first
deposit creates the active account with `total_deposited = amount`,
`current_yield_bps = 300`, all counters zero and `deposited_at = now`. -/
theorem C7_deposit_props :
    (∀ (vault : Vault) (md : MerchantDeposit) (m vk b : Nat) (now : Int)
        (amt : Nat), amt < vault.min_deposit_sol →
        deposit_sol vault md m vk b now amt = .error .InsufficientDeposit) ∧
    (∀ (vault : Vault) (md : MerchantDeposit) (m vk b : Nat) (now : Int)
        (amt : Nat), amt < vault.min_deposit_token →
        deposit_token vault md m vk b now amt = .error .InsufficientDeposit) ∧
    (∀ (vault : Vault) (md : MerchantDeposit) (m vk b : Nat) (now : Int)
        (amt : Nat), vault.min_deposit_sol ≤ amt → md.is_active = true →
        md.total_deposited + amt < U64 →
        deposit_sol vault md m vk b now amt =
          .ok { md with total_deposited := md.total_deposited + amt }) ∧
    (∀ (vault : Vault) (md : MerchantDeposit) (m vk b : Nat) (now : Int)
        (amt : Nat), vault.min_deposit_token ≤ amt → md.is_active = true →
        md.total_deposited + amt < U64 →
        deposit_token vault md m vk b now amt =
          .ok { md with total_deposited := md.total_deposited + amt }) ∧
    (∀ (vault : Vault) (md : MerchantDeposit) (m vk b : Nat) (now : Int)
        (amt : Nat), vault.min_deposit_sol ≤ amt → md.is_active = false →
        deposit_sol vault md m vk b now amt =
          .ok { merchant := m, vault := vk, deposit_token := DepositType.Sol,
                total_deposited := amt, accrued_rewards := 0, is_active := true,
                deposited_at := now, bump := b, total_orders_processed := 0,
                total_volume_usd := 0, current_month_volume := 0,
                last_volume_reset := now, monthly_unique_customers := 0,
                current_yield_bps := 300 }) ∧
    (∀ (vault : Vault) (md : MerchantDeposit) (m vk b : Nat) (now : Int)
        (amt : Nat), vault.min_deposit_token ≤ amt → md.is_active = false →
        deposit_token vault md m vk b now amt =
          .ok { merchant := m, vault := vk, deposit_token := DepositType.SplToken,
                total_deposited := amt, accrued_rewards := 0, is_active := true,
                deposited_at := now, bump := b, total_orders_processed := 0,
                total_volume_usd := 0, current_month_volume := 0,
                last_volume_reset := now, monthly_unique_customers := 0,
                current_yield_bps := 300 }) := by
  refine ⟨?_, ?_, ?_, ?_, ?_, ?_⟩
  · intro vault md m vk b now amt h
    unfold deposit_sol
    rw [if_neg (by omega)]
  · intro vault md m vk b now amt h
    unfold deposit_token
    rw [if_neg (by omega)]
  · intro vault md m vk b now amt hge his hov
    unfold deposit_sol
    rw [if_pos hge, his]
    simp only [if_true]
    rw [checked_add_eq_some _ _ _ hov]
  · intro vault md m vk b now amt hge his hov
    unfold deposit_token
    rw [if_pos hge, his]
    simp only [if_true]
    rw [checked_add_eq_some _ _ _ hov]
  · intro vault md m vk b now amt hge his
    unfold deposit_sol
    rw [if_pos hge, his]
    simp only [Bool.false_eq_true, if_false]
  · intro vault md m vk b now amt hge his
    unfold deposit_token
    rw [if_pos hge, his]
    simp only [Bool.false_eq_true, if_false]

/-- Witness for C7, the spec's Scenario A plus the rejection cases: with
default configuration, a 2×10⁹ first deposit activates the account at
yield 300 with zeroed counters, a 2×10⁹ top-up adds exactly that amount,
and deposits one unit under either minimum are rejected. -/
theorem C7_deposit_props_witness :
    deposit_sol (init_vault 7 0) { md_base with is_active := false } 1 9 0 0
      2000000000 =
      .ok { merchant := 1, vault := 9, deposit_token := DepositType.Sol,
            total_deposited := 2000000000, accrued_rewards := 0,
            is_active := true, deposited_at := 0, bump := 0,
            total_orders_processed := 0, total_volume_usd := 0,
            current_month_volume := 0, last_volume_reset := 0,
            monthly_unique_customers := 0, current_yield_bps := 300 } ∧
    deposit_sol (init_vault 7 0) md_base 1 9 0 0 2000000000 =
      .ok { md_base with total_deposited := 4000000000 } ∧
    deposit_sol (init_vault 7 0) md_base 1 9 0 0 999999999 =
      .error .InsufficientDeposit ∧
    deposit_token (init_vault 7 0) md_base 1 9 0 0 99999999 =
      .error .InsufficientDeposit :=
  ⟨C7_deposit_props.2.2.2.2.1 (init_vault 7 0) { md_base with is_active := false }
     1 9 0 0 2000000000 (by decide) rfl,
   C7_deposit_props.2.2.1 (init_vault 7 0) md_base 1 9 0 0 2000000000
     (by decide) rfl (by decide),
   C7_deposit_props.1 (init_vault 7 0) md_base 1 9 0 0 999999999 (by decide),
   C7_deposit_props.2.1 (init_vault 7 0) md_base 1 9 0 0 99999999 (by decide)⟩

/-- C3, behavior at the failing input: a SOL deposit into an active
account whose stored asset class is `SplToken` is not rejected — the code
never compares the deposit instruction's asset class with the account's
`deposit_token` — and silently adds the amount to `total_deposited`,
leaving the stored asset class as it was. -/
theorem C3_mismatched_class_not_rejected :
    deposit_sol (init_vault 7 0)
      { md_base with deposit_token := DepositType.SplToken } 1 9 0 0
      2000000000 =
      .ok { md_base with deposit_token := DepositType.SplToken,
                         total_deposited := 4000000000 } ∧
    ({ md_base with deposit_token := DepositType.SplToken,
                    total_deposited := 4000000000 } :
        MerchantDeposit).deposit_token = DepositType.SplToken :=
  ⟨rfl, rfl⟩

/-- A successful `update_vault_config` preserves the bound
`reward_share_rate ≤ 10000`: a rate field is only overwritten after the
`≤ 10000` check, and no other branch touches it. -/
theorem update_preserves_rate_bound (vault : Vault) (caller : Nat)
    (ms mt sr : Option Nat) (en : Option Bool) (v2 : Vault)
    (hrate : vault.reward_share_rate ≤ 10000)
    (hok : update_vault_config vault caller ms mt sr en = .ok v2) :
    v2.reward_share_rate ≤ 10000 := by
  by_cases hc : caller = vault.authority
  · rcases ms with _ | x <;> rcases mt with _ | y <;> rcases en with _ | e <;>
      rcases sr with _ | r
    all_goals unfold update_vault_config at hok
    all_goals rw [if_pos hc] at hok
    all_goals simp only [] at hok
    all_goals try split at hok
    all_goals try exact Except.noConfusion hok
    all_goals injection hok with hok
    all_goals subst hok
    all_goals simp_all
  · unfold update_vault_config at hok
    rw [if_neg hc] at hok
    exact Except.noConfusion hok

/-- C8: `update_vault_config` fails `Unauthorized` for any caller other
than the registry authority, fails `InvalidRate` when the supplied reward
share rate exceeds 10000 — whatever other optional fields are supplied
alongside (the error return leaves the registry unchanged under the
runtime's all-or-nothing write semantics) — and consequently
`reward_share_rate ≤ 10000` holds in every reachable registry state. -/
theorem C8_update_config_props :
    (∀ (vault : Vault) (caller : Nat) (ms mt sr : Option Nat) (en : Option Bool),
        caller ≠ vault.authority →
        update_vault_config vault caller ms mt sr en = .error .Unauthorized) ∧
    (∀ (vault : Vault) (ms mt : Option Nat) (en : Option Bool) (r : Nat),
        10000 < r →
        update_vault_config vault vault.authority ms mt (some r) en =
          .error .InvalidRate) ∧
    (∀ v : Vault, VaultReachable v → v.reward_share_rate ≤ 10000) := by
  refine ⟨?_, ?_, ?_⟩
  · intro vault caller ms mt sr en h
    unfold update_vault_config
    rw [if_neg h]
  · intro vault ms mt en r h
    unfold update_vault_config
    rw [if_pos rfl]
    simp only []
    rw [if_neg (by omega)]
  · intro v hv
    induction hv with
    | init a b => norm_num [init_vault]
    | update v caller ms mt sr en v2 hv hok ih =>
      exact update_preserves_rate_bound v caller ms mt sr en v2 ih hok

/-- Witness for C8: a non-authority caller is rejected; the authority
supplying rate 10001 together with other fields gets `InvalidRate`; and
the freshly initialized registry is reachable with rate 8000 ≤ 10000. -/
theorem C8_update_config_props_witness :
    update_vault_config (init_vault 7 0) 8 none none none none =
      .error .Unauthorized ∧
    update_vault_config (init_vault 7 0) 7 (some 5) none (some 10001)
      (some false) = .error .InvalidRate ∧
    VaultReachable (init_vault 7 0) ∧
    (init_vault 7 0).reward_share_rate ≤ 10000 :=
  ⟨C8_update_config_props.1 (init_vault 7 0) 8 none none none none (by decide),
   C8_update_config_props.2.1 (init_vault 7 0) (some 5) none (some false) 10001
     (by norm_num),
   VaultReachable.init 7 0,
   C8_update_config_props.2.2 (init_vault 7 0) (VaultReachable.init 7 0)⟩

end ShawVault
